import Mathlib

/-!
Shallow embedding of the RSN file-carving engine
(`src/core/file_carving.cpp`, class `rsn::core::FileCarvingEngine`).

Bytes are modelled as `Nat` (values of `uint8_t`), byte buffers as
`List Nat`, and `size_t` arithmetic as `Nat` with an explicit
wrap-around `% 2 ^ 64` at the two subtractions where the C code can
underflow.  The engine's `std::map<std::string, FileSignature>` is
modelled as a key-sorted association list, with the C++ string order
embedded as a lexicographic comparison on the character lists (the
registered keys are ASCII, where C++ byte order and code-point order
coincide).  The `double scan_time_seconds` field only ever holds the
exact constant `0.0` in the source, so it is modelled as `ℚ`.
-/

/-- Wrap-around subtraction of `size_t` (64-bit unsigned) values:
`a - b` computed modulo `2 ^ 64`, as C performs it. -/
def u64sub (a b : Nat) : Nat :=
  (2 ^ 64 + a - b) % 2 ^ 64

/-- Lexicographic strict order on character lists, comparing code points,
embedding the element-wise `std::string` comparison used by `std::map`. -/
def charListLt : List Char → List Char → Bool
  | [], [] => false
  | [], _ :: _ => true
  | _ :: _, [] => false
  | a :: as, b :: bs =>
    if a.toNat < b.toNat then true
    else if b.toNat < a.toNat then false
    else charListLt as bs

/-- Strict order on strings used by the signature registry's `std::map`. -/
def strLt (a b : String) : Bool :=
  charListLt a.data b.data

/-- Descriptor of one carvable file format (`struct FileSignature` in
`core/file_carving.h`; field names as used by the implementation and
its unit tests). -/
structure FileSignature where
  file_type : String
  extension : String
  header : List Nat
  footer : List Nat
  max_file_size : Nat
  has_footer : Bool
deriving DecidableEq

/-- Per-run counters of the engine (`struct CarvingStats`). -/
structure CarvingStats where
  bytes_scanned : Nat
  files_found : Nat
  files_carved : Nat
  scan_time_seconds : ℚ
deriving DecidableEq

/-- State of `rsn::core::FileCarvingEngine`: the signature registry
(`std::map` keyed by `file_type`, kept key-sorted), the configured
scan cap, and the stats of the current run. -/
structure FileCarvingEngine where
  signatures_ : List (String × FileSignature)
  max_scan_size_ : Nat
  stats_ : CarvingStats

namespace FileSignatures

/-- JPEG default signature (`FileSignatures::JPEG`). -/
def JPEG : FileSignature :=
  ⟨"JPEG Image", ".jpg", [0xFF, 0xD8, 0xFF], [0xFF, 0xD9], 10 * 1024 * 1024, true⟩

/-- PNG default signature (`FileSignatures::PNG`). -/
def PNG : FileSignature :=
  ⟨"PNG Image", ".png", [0x89, 0x50, 0x4E, 0x47, 0x0D, 0x0A, 0x1A, 0x0A],
    [0x49, 0x45, 0x4E, 0x44, 0xAE, 0x42, 0x60, 0x82], 50 * 1024 * 1024, true⟩

/-- PDF default signature (`FileSignatures::PDF`). -/
def PDF : FileSignature :=
  ⟨"PDF Document", ".pdf", [0x25, 0x50, 0x44, 0x46],
    [0x25, 0x25, 0x45, 0x4F, 0x46], 100 * 1024 * 1024, true⟩

/-- ZIP default signature (`FileSignatures::ZIP`). -/
def ZIP : FileSignature :=
  ⟨"ZIP Archive", ".zip", [0x50, 0x4B, 0x03, 0x04],
    [0x50, 0x4B, 0x05, 0x06], 1024 * 1024 * 1024, true⟩

/-- MP3 default signature (`FileSignatures::MP3`). -/
def MP3 : FileSignature :=
  ⟨"MP3 Audio", ".mp3", [0xFF, 0xFB], [], 50 * 1024 * 1024, false⟩

/-- DOCX default signature (`FileSignatures::DOCX`). -/
def DOCX : FileSignature :=
  ⟨"Word Document", ".docx", [0x50, 0x4B, 0x03, 0x04], [], 100 * 1024 * 1024, false⟩

/-- GIF default signature (`FileSignatures::GIF`). -/
def GIF : FileSignature :=
  ⟨"GIF Image", ".gif", [0x47, 0x49, 0x46, 0x38], [0x00, 0x3B], 10 * 1024 * 1024, true⟩

/-- BMP default signature (`FileSignatures::BMP`). -/
def BMP : FileSignature :=
  ⟨"BMP Image", ".bmp", [0x42, 0x4D], [], 50 * 1024 * 1024, false⟩

/-- MP4 default signature (`FileSignatures::MP4`). -/
def MP4 : FileSignature :=
  ⟨"MP4 Video", ".mp4", [0x00, 0x00, 0x00, 0x18, 0x66, 0x74, 0x79, 0x70], [],
    2 * 1024 * 1024 * 1024, false⟩

/-- AVI default signature (`FileSignatures::AVI`). -/
def AVI : FileSignature :=
  ⟨"AVI Video", ".avi", [0x52, 0x49, 0x46, 0x46], [], 2 * 1024 * 1024 * 1024, false⟩

/-- MKV default signature (`FileSignatures::MKV`). -/
def MKV : FileSignature :=
  ⟨"Matroska Video", ".mkv", [0x1A, 0x45, 0xDF, 0xA3], [], 4 * 1024 * 1024 * 1024, false⟩

/-- FLV default signature (`FileSignatures::FLV`). -/
def FLV : FileSignature :=
  ⟨"Flash Video", ".flv", [0x46, 0x4C, 0x56, 0x01], [], 1024 * 1024 * 1024, false⟩

/-- MOV default signature (`FileSignatures::MOV`). -/
def MOV : FileSignature :=
  ⟨"QuickTime Video", ".mov",
    [0x00, 0x00, 0x00, 0x14, 0x66, 0x74, 0x79, 0x70, 0x71, 0x74], [],
    4 * 1024 * 1024 * 1024, false⟩

/-- WMV default signature (`FileSignatures::WMV`). -/
def WMV : FileSignature :=
  ⟨"Windows Media Video", ".wmv",
    [0x30, 0x26, 0xB2, 0x75, 0x8E, 0x66, 0xCF, 0x11], [],
    2 * 1024 * 1024 * 1024, false⟩

/-- RAR default signature (`FileSignatures::RAR`). -/
def RAR : FileSignature :=
  ⟨"RAR Archive", ".rar", [0x52, 0x61, 0x72, 0x21, 0x1A, 0x07], [],
    4 * 1024 * 1024 * 1024, false⟩

/-- GZIP default signature (`FileSignatures::GZIP`). -/
def GZIP : FileSignature :=
  ⟨"GZIP Archive", ".gz", [0x1F, 0x8B, 0x08], [], 1024 * 1024 * 1024, false⟩

/-- 7-Zip default signature (`FileSignatures::SEVENZ`). -/
def SEVENZ : FileSignature :=
  ⟨"7-Zip Archive", ".7z", [0x37, 0x7A, 0xBC, 0xAF, 0x27, 0x1C], [],
    4 * 1024 * 1024 * 1024, false⟩

/-- TAR default signature (`FileSignatures::TAR`). -/
def TAR : FileSignature :=
  ⟨"TAR Archive", ".tar", [0x75, 0x73, 0x74, 0x61, 0x72], [],
    4 * 1024 * 1024 * 1024, false⟩

/-- BZIP2 default signature (`FileSignatures::BZIP2`). -/
def BZIP2 : FileSignature :=
  ⟨"BZIP2 Archive", ".bz2", [0x42, 0x5A, 0x68], [], 1024 * 1024 * 1024, false⟩

/-- FLAC default signature (`FileSignatures::FLAC`). -/
def FLAC : FileSignature :=
  ⟨"FLAC Audio", ".flac", [0x66, 0x4C, 0x61, 0x43], [], 500 * 1024 * 1024, false⟩

/-- WAV default signature (`FileSignatures::WAV`). -/
def WAV : FileSignature :=
  ⟨"WAV Audio", ".wav", [0x52, 0x49, 0x46, 0x46], [], 500 * 1024 * 1024, false⟩

/-- M4A default signature (`FileSignatures::M4A`). -/
def M4A : FileSignature :=
  ⟨"M4A Audio", ".m4a",
    [0x00, 0x00, 0x00, 0x20, 0x66, 0x74, 0x79, 0x70, 0x4D, 0x34, 0x41], [],
    200 * 1024 * 1024, false⟩

/-- OGG default signature (`FileSignatures::OGG`). -/
def OGG : FileSignature :=
  ⟨"OGG Audio", ".ogg", [0x4F, 0x67, 0x67, 0x53], [], 200 * 1024 * 1024, false⟩

/-- WMA default signature (`FileSignatures::WMA`). -/
def WMA : FileSignature :=
  ⟨"Windows Media Audio", ".wma",
    [0x30, 0x26, 0xB2, 0x75, 0x8E, 0x66, 0xCF, 0x11], [],
    200 * 1024 * 1024, false⟩

end FileSignatures

/-- Ordered insert-or-replace into the key-sorted association list,
embedding `signatures_[signature.file_type] = signature` on the
engine's `std::map<std::string, FileSignature>`. -/
def mapInsert (k : String) (v : FileSignature) :
    List (String × FileSignature) → List (String × FileSignature)
  | [] => [(k, v)]
  | (k1, v1) :: rest =>
    if strLt k k1 then (k, v) :: (k1, v1) :: rest
    else if k = k1 then (k, v) :: rest
    else (k1, v1) :: mapInsert k v rest

namespace FileCarvingEngine

/-- The default-constructed engine (`FileCarvingEngine::FileCarvingEngine`):
empty registry, `max_scan_size_` of 1 TB, all stats zero. -/
def new : FileCarvingEngine :=
  { signatures_ := []
    max_scan_size_ := 1024 * 1024 * 1024 * 1024
    stats_ := ⟨0, 0, 0, 0⟩ }

/-- Registers (or replaces) a signature keyed by its `file_type`
(`FileCarvingEngine::AddSignature`). -/
def AddSignature (e : FileCarvingEngine) (signature : FileSignature) :
    FileCarvingEngine :=
  { e with signatures_ := mapInsert signature.file_type signature e.signatures_ }

/-- Returns the registered `file_type` names in map-iteration (key) order
(`FileCarvingEngine::GetSupportedFileTypes`). -/
def GetSupportedFileTypes (e : FileCarvingEngine) : List String :=
  e.signatures_.map Prod.fst

/-- Sets the scan cap (`FileCarvingEngine::SetMaxScanSize`). -/
def SetMaxScanSize (e : FileCarvingEngine) (size : Nat) : FileCarvingEngine :=
  { e with max_scan_size_ := size }

/-- Returns a snapshot of the stats (`FileCarvingEngine::GetStats`). -/
def GetStats (e : FileCarvingEngine) : CarvingStats :=
  e.stats_

/-- Registers the 24 default signatures in the source's call order
(`FileCarvingEngine::LoadDefaultSignatures`). -/
def LoadDefaultSignatures (e : FileCarvingEngine) : FileCarvingEngine :=
  let e := AddSignature e FileSignatures.JPEG
  let e := AddSignature e FileSignatures.PNG
  let e := AddSignature e FileSignatures.GIF
  let e := AddSignature e FileSignatures.BMP
  let e := AddSignature e FileSignatures.PDF
  let e := AddSignature e FileSignatures.DOCX
  let e := AddSignature e FileSignatures.ZIP
  let e := AddSignature e FileSignatures.RAR
  let e := AddSignature e FileSignatures.GZIP
  let e := AddSignature e FileSignatures.SEVENZ
  let e := AddSignature e FileSignatures.TAR
  let e := AddSignature e FileSignatures.BZIP2
  let e := AddSignature e FileSignatures.MP3
  let e := AddSignature e FileSignatures.FLAC
  let e := AddSignature e FileSignatures.WAV
  let e := AddSignature e FileSignatures.M4A
  let e := AddSignature e FileSignatures.OGG
  let e := AddSignature e FileSignatures.WMA
  let e := AddSignature e FileSignatures.MP4
  let e := AddSignature e FileSignatures.AVI
  let e := AddSignature e FileSignatures.MKV
  let e := AddSignature e FileSignatures.FLV
  let e := AddSignature e FileSignatures.MOV
  let e := AddSignature e FileSignatures.WMV
  e

/-- Loads the defaults, logs, and reports success
(`FileCarvingEngine::Initialize`; the log call has no engine effect). -/
def Initialize (e : FileCarvingEngine) : Bool × FileCarvingEngine :=
  (true, LoadDefaultSignatures e)

/-- The carving entry point (`FileCarvingEngine::CarveFiles`).  The source
resets the stats, logs that carving is "not fully implemented yet
(placeholder)" and returns 0 without reading the device, producing no
carve candidates and writing no files; both string arguments are unused
except for logging. -/
def CarveFiles (e : FileCarvingEngine) (device_path output_dir : String) :
    Nat × FileCarvingEngine :=
  (0, { e with stats_ := ⟨0, 0, 0, 0⟩ })

/-- Header/footer equality test (`FileCarvingEngine::MatchesSignature`):
`memcmp(data, signature.data(), signature.size()) == 0` guarded by
`size < signature.size()`.  `data` is the window suffix the C pointer
points at; when the guard passes but the buffer is shorter than
`signature` (only possible under the C3 underflow, where the C code's
reads are undefined) the comparison of the truncated prefix is `false`
here, and the dedicated read-trace model below accounts for the
out-of-window dereferences. -/
def MatchesSignature (data : List Nat) (size : Nat) (signature : List Nat) :
    Bool :=
  if size < signature.length then false
  else data.take signature.length == signature

/-- Whether `footer` occurs in `data` starting at index `i`. -/
def footerAtB (data footer : List Nat) (i : Nat) : Bool :=
  (data.drop i).take footer.length == footer

/-- The loop of `FindFooter`, with `bound` the precomputed
`max_size - footer.size()` (in `size_t` arithmetic) and `fuel` the
number of remaining iterations; `FindFooter` supplies
`fuel = bound - i`, so fuel exhaustion coincides with the loop's exit
and yields the loop's fall-through result 0. -/
def findFooterAux (data footer : List Nat) (maxSize bound : Nat) :
    Nat → Nat → Nat
  | _, 0 => 0
  | i, Nat.succ fuel =>
    if i < bound then
      if MatchesSignature (data.drop i) (u64sub maxSize i) footer then
        i + footer.length
      else
        findFooterAux data footer maxSize bound (i + 1) fuel
    else 0

/-- Footer search (`FileCarvingEngine::FindFooter`): returns 0 at once for
an empty footer, otherwise scans forward from `start` while
`i < max_size - footer.size()` (computed in `size_t` arithmetic) and
returns `i + footer.size()` at the first match, 0 if none. -/
def FindFooter (data : List Nat) (start maxSize : Nat) (footer : List Nat) :
    Nat :=
  if footer.isEmpty then 0
  else
    findFooterAux data footer maxSize (u64sub maxSize footer.length) start
      (u64sub maxSize footer.length - start)

/-- Window indices dereferenced by one `memcmp(data + i, footer.data(),
footer.size())` call in C: bytes are read left to right while they keep
matching; the trace stops at the first index outside the window (the
first undefined read), which is recorded. -/
def memcmpReads (data : List Nat) : List Nat → Nat → List Nat
  | [], _ => []
  | b :: rest, i =>
    match data.get? i with
    | none => [i]
    | some d => if d == b then i :: memcmpReads data rest (i + 1) else [i]

/-- Read trace of the `FindFooter` loop: the window indices its
`MatchesSignature` calls dereference, iteration by iteration.  An
iteration whose `max_size - i` guard fails reads nothing; otherwise its
`memcmp` reads are appended.  The trace stops at the first
out-of-window dereference (everything after it is undefined in C) or at
the first full match (the loop returns). -/
def findFooterReadsAux (data footer : List Nat) (maxSize bound : Nat) :
    Nat → Nat → List Nat
  | _, 0 => []
  | i, Nat.succ fuel =>
    if i < bound then
      if u64sub maxSize i < footer.length then
        findFooterReadsAux data footer maxSize bound (i + 1) fuel
      else
        let r := memcmpReads data footer i
        if r.any (fun j => data.length ≤ j) then r
        else if footerAtB data footer i then r
        else r ++ findFooterReadsAux data footer maxSize bound (i + 1) fuel
    else []

/-- Read trace of a `FindFooter` call for the first `fuel` loop
iterations (the full call performs `max_size - footer.size() - start`
iterations in `size_t` arithmetic, which is astronomically large
exactly when the C3 underflow occurs). -/
def FindFooterReads (data : List Nat) (start maxSize : Nat)
    (footer : List Nat) (fuel : Nat) : List Nat :=
  if footer.isEmpty then []
  else findFooterReadsAux data footer maxSize (u64sub maxSize footer.length)
    start fuel

end FileCarvingEngine

/-- The 24 `file_type` names registered by `LoadDefaultSignatures`, in
call order. -/
def defaultTypeNames : List String :=
  ["JPEG Image", "PNG Image", "GIF Image", "BMP Image",
   "PDF Document", "Word Document",
   "ZIP Archive", "RAR Archive", "GZIP Archive", "7-Zip Archive",
   "TAR Archive", "BZIP2 Archive",
   "MP3 Audio", "FLAC Audio", "WAV Audio", "M4A Audio", "OGG Audio",
   "Windows Media Audio",
   "MP4 Video", "AVI Video", "Matroska Video", "Flash Video",
   "QuickTime Video", "Windows Media Video"]

/-- Default `file_type` names registered under the source's `// Images`
group. -/
def imageTypeNames : List String :=
  ["JPEG Image", "PNG Image", "GIF Image", "BMP Image"]

/-- Default `file_type` names registered under the source's `// Documents`
group. -/
def documentTypeNames : List String :=
  ["PDF Document", "Word Document"]

/-- Default `file_type` names registered under the source's `// Archives`
group. -/
def archiveTypeNames : List String :=
  ["ZIP Archive", "RAR Archive", "GZIP Archive", "7-Zip Archive",
   "TAR Archive", "BZIP2 Archive"]

/-- Default `file_type` names registered under the source's `// Audio`
group. -/
def audioTypeNames : List String :=
  ["MP3 Audio", "FLAC Audio", "WAV Audio", "M4A Audio", "OGG Audio",
   "Windows Media Audio"]

/-- Default `file_type` names registered under the source's `// Video`
group. -/
def videoTypeNames : List String :=
  ["MP4 Video", "AVI Video", "Matroska Video", "Flash Video",
   "QuickTime Video", "Windows Media Video"]

namespace FileCarvingEngine

/-- The lexicographic character-list order is irreflexive. -/
theorem charListLt_irrefl : ∀ a : List Char, charListLt a a = false := by
  intro a
  induction a with
  | nil => rfl
  | cons x xs ih => simp [charListLt, Nat.lt_irrefl, ih]

/-- The lexicographic character-list order is transitive. -/
theorem charListLt_trans : ∀ a b c : List Char,
    charListLt a b = true → charListLt b c = true → charListLt a c = true := by
  intro a
  induction a with
  | nil =>
    intro b c hab hbc
    cases b with
    | nil => simp [charListLt] at hab
    | cons y ys =>
      cases c with
      | nil => simp [charListLt] at hbc
      | cons z zs => simp [charListLt]
  | cons x xs ih =>
    intro b c hab hbc
    cases b with
    | nil => simp [charListLt] at hab
    | cons y ys =>
      cases c with
      | nil => simp [charListLt] at hbc
      | cons z zs =>
        simp only [charListLt] at hab hbc ⊢
        by_cases h1 : x.toNat < y.toNat
        · by_cases h2 : y.toNat < z.toNat
          · simp [Nat.lt_trans h1 h2]
          · simp only [h2, if_false] at hbc
            by_cases h3 : z.toNat < y.toNat
            · simp [h3] at hbc
            · have hyz : y.toNat = z.toNat := by omega
              simp [hyz ▸ h1]
        · simp only [h1, if_false] at hab
          by_cases h4 : y.toNat < x.toNat
          · simp [h4] at hab
          · have hxy : x.toNat = y.toNat := by omega
            by_cases h2 : y.toNat < z.toNat
            · simp [hxy ▸ h2]
            · simp only [h2, if_false] at hbc
              by_cases h3 : z.toNat < y.toNat
              · simp [h3] at hbc
              · have hyz : y.toNat = z.toNat := by omega
                have hxz : ¬ x.toNat < z.toNat := by omega
                have hzx : ¬ z.toNat < x.toNat := by omega
                simp only [h4, if_false] at hab
                simp only [h3, if_false] at hbc
                simp [hxz, hzx, ih ys zs hab hbc]

/-- The registry's string order is irreflexive. -/
theorem strLt_irrefl (a : String) : strLt a a = false :=
  charListLt_irrefl a.data

/-- The registry's string order is transitive. -/
theorem strLt_trans (a b c : String) (hab : strLt a b = true)
    (hbc : strLt b c = true) : strLt a c = true :=
  charListLt_trans a.data b.data c.data hab hbc

/-- Inserting into a key-sorted registry leaves the entry count unchanged
exactly when the key is already present, and grows it by one otherwise. -/
theorem mapInsert_length (k : String) (v : FileSignature) :
    ∀ l : List (String × FileSignature),
    (l.map Prod.fst).Pairwise (fun a b => strLt a b = true) →
    (mapInsert k v l).length =
      if k ∈ l.map Prod.fst then l.length else l.length + 1 := by
  intro l
  induction l with
  | nil => intro _; simp [mapInsert]
  | cons p rest ih =>
    intro hs
    obtain ⟨k1, v1⟩ := p
    simp only [List.map_cons, List.pairwise_cons] at hs
    by_cases h1 : strLt k k1 = true
    · have hne : k ≠ k1 := by
        intro he
        rw [he, strLt_irrefl] at h1
        exact Bool.false_ne_true h1
      have hnotin : k ∉ rest.map Prod.fst := by
        intro hmem
        have h2 : strLt k1 k = true := hs.1 _ hmem
        have h3 : strLt k k = true := strLt_trans _ _ _ h1 h2
        rw [strLt_irrefl] at h3
        exact Bool.false_ne_true h3
      simp [mapInsert, h1, hne, hnotin]
    · by_cases h2 : k = k1
      · subst h2
        simp [mapInsert, h1]
      · have ihr := ih hs.2
        by_cases h3 : k ∈ rest.map Prod.fst
        · simp [mapInsert, h1, h2, ihr, h3]
        · simp [mapInsert, h1, h2, ihr, h3]

/-- Wrap-around `size_t` subtraction agrees with `Nat` subtraction when no
underflow occurs. -/
theorem u64sub_of_le (a b : Nat) (hba : b ≤ a) (ha : a < 2 ^ 64) :
    u64sub a b = a - b := by
  unfold u64sub
  have h1 : 2 ^ 64 + a - b = 2 ^ 64 + (a - b) := by omega
  rw [h1, Nat.add_mod_left]
  exact Nat.mod_eq_of_lt (by omega)

/-- When the size guard is satisfied, `MatchesSignature` on the window
suffix at `i` is exactly the footer-occurrence test at `i`. -/
theorem MatchesSignature_eq_footerAtB (data footer : List Nat) (i size : Nat)
    (h : footer.length ≤ size) :
    MatchesSignature (data.drop i) size footer = footerAtB data footer i := by
  simp [MatchesSignature, footerAtB, Nat.not_lt.2 h]

/-- Characterization of the `FindFooter` loop on non-underflowing bounds:
it returns 0 when no footer occurrence starts in `[i, max_size - len)`,
and otherwise returns end offset of the first such occurrence. -/
theorem findFooterAux_spec (data footer : List Nat) (maxSize : Nat)
    (hmax : maxSize < 2 ^ 64) (hfl : footer.length ≤ maxSize) :
    ∀ fuel i : Nat, maxSize - footer.length ≤ i + fuel →
    (findFooterAux data footer maxSize (u64sub maxSize footer.length) i fuel
        = 0 ∧
      ∀ j, i ≤ j → j + footer.length < maxSize →
        footerAtB data footer j = false) ∨
    (∃ j, i ≤ j ∧ j + footer.length < maxSize ∧
      footerAtB data footer j = true ∧
      findFooterAux data footer maxSize (u64sub maxSize footer.length) i fuel
        = j + footer.length ∧
      ∀ k, i ≤ k → k < j → footerAtB data footer k = false) := by
  have hbound : u64sub maxSize footer.length = maxSize - footer.length :=
    u64sub_of_le _ _ hfl hmax
  intro fuel
  induction fuel with
  | zero =>
    intro i hi
    left
    refine ⟨rfl, fun j hij hj => absurd hj (by omega)⟩
  | succ fuel ih =>
    intro i hi
    simp only [hbound] at ih
    rw [findFooterAux, hbound]
    by_cases hlt : i < maxSize - footer.length
    · have hflt : footer.length ≤ u64sub maxSize i := by
        rw [u64sub_of_le _ _ (by omega) hmax]
        omega
      rw [if_pos hlt, MatchesSignature_eq_footerAtB _ _ _ _ hflt]
      by_cases hfound : footerAtB data footer i = true
      · right
        refine ⟨i, le_refl i, by omega, hfound, ?_, fun k hik hki => absurd hki (by omega)⟩
        rw [if_pos hfound]
      · have hfound' : footerAtB data footer i = false :=
          Bool.eq_false_iff.2 hfound
        rw [hfound', if_neg (Bool.false_ne_true)]
        rcases ih (i + 1) (by omega) with ⟨hz, hnone⟩ | ⟨j, hij, hj, hat, hres, hfirst⟩
        · left
          refine ⟨hz, fun j hij hj => ?_⟩
          rcases Nat.eq_or_lt_of_le hij with he | hlt'
          · exact he ▸ hfound'
          · exact hnone j hlt' hj
        · right
          refine ⟨j, by omega, hj, hat, hres, fun k hik hkj => ?_⟩
          rcases Nat.eq_or_lt_of_le hik with he | hlt'
          · exact he ▸ hfound'
          · exact hfirst k hlt' hkj
    · left
      rw [if_neg hlt]
      exact ⟨rfl, fun j hij hj => absurd hj (by omega)⟩

end FileCarvingEngine

open FileCarvingEngine

/-- C1: the claim states that on a source holding a registered header
immediately followed (within `max_size`) by its footer, `CarveFiles`
produces exactly one candidate and `files_carved` increments to 1.  The
source's `CarveFiles` is an unimplemented placeholder: for every engine
state and every device/output argument it resets the stats, returns 0,
reads nothing and carves nothing, so `files_carved` stays 0. -/
theorem claim_C1_carveFiles_placeholder (e : FileCarvingEngine)
    (device_path output_dir : String) :
    (CarveFiles e device_path output_dir).1 = 0 ∧
    (GetStats (CarveFiles e device_path output_dir).2).files_carved = 0 :=
  ⟨rfl, rfl⟩

/-- C2 counterexample: in the window `[0, 0, 1, 1]` the footer `[1, 1]`
occurs at index 2, entirely inside the searched range `[0, 4)`, yet
`FindFooter` returns 0 ("not found") instead of 4: the loop bound
`i < max_size - footer.size()` skips an occurrence ending exactly at the
search limit, refuting the claim as stated. -/
theorem claim_C2_counterexample :
    footerAtB [0, 0, 1, 1] [1, 1] 2 = true ∧
    2 + ([1, 1] : List Nat).length ≤ 4 ∧
    FindFooter [0, 0, 1, 1] 0 4 [1, 1] = 0 := by decide

/-- C2 (amended): for a non-empty footer on a well-formed window
(`footer.length ≤ max_size ≤ data.length`, sizes in `size_t` range),
`FindFooter` returns the offset right after the first occurrence of the
footer that ends strictly before the search limit (start index in
`[start, max_size - footer.length)`), and 0 when no such occurrence
exists; an occurrence ending exactly at the limit is not found. -/
theorem claim_C2_findFooter_first_strict (data footer : List Nat)
    (start maxSize : Nat) (hne : footer ≠ []) (hfl : footer.length ≤ maxSize)
    (hwin : maxSize ≤ data.length) (hmax : maxSize < 2 ^ 64) :
    (FindFooter data start maxSize footer = 0 ∧
      ∀ j, start ≤ j → j + footer.length < maxSize →
        footerAtB data footer j = false) ∨
    (∃ j, start ≤ j ∧ j + footer.length < maxSize ∧
      footerAtB data footer j = true ∧
      FindFooter data start maxSize footer = j + footer.length ∧
      ∀ k, start ≤ k → k < j → footerAtB data footer k = false) := by
  have hie : footer.isEmpty = false := by
    cases footer with
    | nil => exact absurd rfl hne
    | cons b bs => rfl
  have hspec := findFooterAux_spec data footer maxSize hmax hfl
    (u64sub maxSize footer.length - start) start
    (by rw [u64sub_of_le _ _ hfl hmax]; omega)
  simpa only [FindFooter, hie, Bool.false_eq_true, if_false] using hspec

/-- C2 witness: on the window `[9, 1, 1, 7, 5]` with footer `[1, 1]`,
searching `[0, 5)`, the amended characterization holds (the occurrence
at index 1 is found and `FindFooter` returns 3). -/
theorem claim_C2_findFooter_first_strict_witness :
    (FindFooter [9, 1, 1, 7, 5] 0 5 [1, 1] = 0 ∧
      ∀ j, 0 ≤ j → j + ([1, 1] : List Nat).length < 5 →
        footerAtB [9, 1, 1, 7, 5] [1, 1] j = false) ∨
    (∃ j, 0 ≤ j ∧ j + ([1, 1] : List Nat).length < 5 ∧
      footerAtB [9, 1, 1, 7, 5] [1, 1] j = true ∧
      FindFooter [9, 1, 1, 7, 5] 0 5 [1, 1] = j + ([1, 1] : List Nat).length ∧
      ∀ k, 0 ≤ k → k < j → footerAtB [9, 1, 1, 7, 5] [1, 1] k = false) :=
  claim_C2_findFooter_first_strict [9, 1, 1, 7, 5] [1, 1] 0 5 (by decide)
    (by decide) (by decide) (by decide)

/-- C3: the claim states that on a window shorter than the footer the
search never reads outside the window.  On the 1-byte window `[0]` with
the 2-byte footer `[1, 1]` (`max_size = 1`), the loop bound
`max_size - footer.size()` underflows to `2 ^ 64 - 1`, the size guard
`max_size - i` underflows once `i` passes the window, and already the
third iteration dereferences index 2 of the 1-byte window — an
out-of-bounds read, after which the C behavior is undefined. -/
theorem claim_C3_oob_read :
    u64sub 1 ([1, 1] : List Nat).length = 2 ^ 64 - 1 ∧
    FindFooterReads [0] 0 1 [1, 1] 3 = [2] ∧
    ([0] : List Nat).length ≤ 2 := by decide

/-- C4: with an empty footer, `FindFooter` returns 0 ("not found")
immediately, and its read trace is empty — no window byte is examined,
for every window, start, limit, and iteration budget. -/
theorem claim_C4_empty_footer (data : List Nat) (start maxSize fuel : Nat) :
    FindFooter data start maxSize [] = 0 ∧
    FindFooterReads data start maxSize [] fuel = [] :=
  ⟨rfl, rfl⟩

/-- C5: every `CarveFiles` invocation, from any prior stats state, resets
all four stats fields to zero, so a `GetStats` snapshot at the start of
the run (equally: after the placeholder run, which updates nothing
further) reads all zeros. -/
theorem claim_C5_stats_reset (e : FileCarvingEngine)
    (device_path output_dir : String) :
    GetStats (CarveFiles e device_path output_dir).2 = ⟨0, 0, 0, 0⟩ :=
  rfl

/-- C6 counterexample: a signature with an empty header (malformed, since
the invariant requires header length ≥ 1) matches the window `[0]` at
offset 0: the size guard `1 < 0` fails and `memcmp` over zero bytes
reports equality, so `MatchesSignature` returns `true`, refuting "an
empty header never matches any position". -/
theorem claim_C6_counterexample :
    MatchesSignature [0] 1 [] = true := by decide

/-- C6 (amended): malformed signatures are accepted without validation
and matching never over-reads when the size argument is accurate, but an
empty header matches at every position of every window rather than
never: `MatchesSignature` returns `true` for the empty byte sequence
regardless of window and size. -/
theorem claim_C6_empty_header_matches (data : List Nat) (size : Nat) :
    MatchesSignature data size [] = true := by
  simp [MatchesSignature]

/-- C7: on any engine whose registry is key-sorted (the invariant of the
`std::map`, which holds for every reachable engine state),
`AddSignature` with an unregistered `file_type` grows
`GetSupportedFileTypes` by exactly one entry, and with an
already-registered `file_type` (replacement) leaves its size
unchanged. -/
theorem claim_C7_addSignature_count (e : FileCarvingEngine)
    (sig : FileSignature)
    (hs : (GetSupportedFileTypes e).Pairwise (fun a b => strLt a b = true)) :
    (GetSupportedFileTypes (AddSignature e sig)).length =
      if sig.file_type ∈ GetSupportedFileTypes e
      then (GetSupportedFileTypes e).length
      else (GetSupportedFileTypes e).length + 1 := by
  have h := mapInsert_length sig.file_type sig e.signatures_ hs
  simpa [GetSupportedFileTypes, AddSignature] using h

/-- C7 witness: adding the JPEG signature to the freshly constructed
engine (empty, trivially sorted registry) grows the supported-types
list as the theorem states. -/
theorem claim_C7_addSignature_count_witness :
    (GetSupportedFileTypes
        (AddSignature FileCarvingEngine.new FileSignatures.JPEG)).length =
      if FileSignatures.JPEG.file_type ∈
          GetSupportedFileTypes FileCarvingEngine.new
      then (GetSupportedFileTypes FileCarvingEngine.new).length
      else (GetSupportedFileTypes FileCarvingEngine.new).length + 1 :=
  claim_C7_addSignature_count FileCarvingEngine.new FileSignatures.JPEG
    List.Pairwise.nil

/-- C8: after `LoadDefaultSignatures` on a fresh engine the
supported-types list holds each of the 24 loaded `file_type` names
exactly once, and its length equals the number of `AddSignature` calls
the loader makes (24). -/
theorem claim_C8_defaults_registered_once :
    (defaultTypeNames.all fun t =>
      (GetSupportedFileTypes
        (LoadDefaultSignatures FileCarvingEngine.new)).count t == 1) = true ∧
    (GetSupportedFileTypes
      (LoadDefaultSignatures FileCarvingEngine.new)).length
      = defaultTypeNames.length ∧
    defaultTypeNames.length = 24 := by decide

/-- C9: after `Initialize` (which loads the defaults) the registry holds
at least one signature in each of the five categories, witnessed by the
registered `file_type` names of the source's image, document, archive,
audio and video groups. -/
theorem claim_C9_all_categories :
    (imageTypeNames.any fun t =>
      (GetSupportedFileTypes
        (Initialize FileCarvingEngine.new).2).contains t) = true ∧
    (documentTypeNames.any fun t =>
      (GetSupportedFileTypes
        (Initialize FileCarvingEngine.new).2).contains t) = true ∧
    (archiveTypeNames.any fun t =>
      (GetSupportedFileTypes
        (Initialize FileCarvingEngine.new).2).contains t) = true ∧
    (audioTypeNames.any fun t =>
      (GetSupportedFileTypes
        (Initialize FileCarvingEngine.new).2).contains t) = true ∧
    (videoTypeNames.any fun t =>
      (GetSupportedFileTypes
        (Initialize FileCarvingEngine.new).2).contains t) = true := by
  decide

/-- C10: `CarveFiles` modifies only the stats: for every engine state and
arguments, the signature registry and the configured `max_scan_size`
are identical before and after the call. -/
theorem claim_C10_carveFiles_frame (e : FileCarvingEngine)
    (device_path output_dir : String) :
    (CarveFiles e device_path output_dir).2.signatures_ = e.signatures_ ∧
    (CarveFiles e device_path output_dir).2.max_scan_size_
      = e.max_scan_size_ :=
  ⟨rfl, rfl⟩
